import Mathlib

/-!
Verification of the Canvas audio LTI submission server.

The server (an Express application) is embedded shallowly: each HTTP
handler becomes a pure Lean function from its inputs — the environment,
the optional LTI session bound to the request, the request payload, the
server state (metadata rows, stored files) and an oracle supplying the
generated identifiers, the server clock and the success/failure of the
external effects (object store, database, outcome service) — to a
response together with the updated state and a log of outcome-service
calls.
-/

/-- Process environment variables read by the server; `none` models an
unset variable. -/
structure Env where
  awsAccessKeyId : Option String
  awsSecretAccessKey : Option String
  awsRegion : Option String
  s3BucketName : Option String
deriving DecidableEq, Repr

/-- The LTI session data stored by the `/launch` handler
(`req.session.lti`). -/
structure LtiSession where
  userId : String
  courseId : String
  assignmentId : String
  roles : String
  lisResultSourcedid : Option String
  lisOutcomeServiceUrl : Option String
  consumerKey : String
deriving DecidableEq, Repr

/-- One row of the `submissions` table. `created_at` is the
server-assigned timestamp (`DEFAULT CURRENT_TIMESTAMP`), modelled as a
natural number so that `ORDER BY created_at DESC` is meaningful. -/
structure SubmissionRow where
  id : String
  user_id : String
  course_id : String
  assignment_id : String
  audio_url : String
  file_name : String
  file_size : Nat
  created_at : Nat
deriving DecidableEq, Repr

/-- The projection returned by `GET /submissions`
(`SELECT id, file_name, file_size, created_at`): the storage location
(`audio_url`) is omitted by construction of this type. -/
structure SubmissionSummary where
  id : String
  file_name : String
  file_size : Nat
  created_at : Nat
deriving DecidableEq, Repr

/-- Mutable server state: the `submissions` table, the local `uploads`
directory (file name and byte length of each file), and the object
store (key and byte length of each object). -/
structure ServerState where
  db : List SubmissionRow
  localFiles : List (String × Nat)
  s3Objects : List (String × Nat)
deriving DecidableEq, Repr

/-- The raw incoming multipart file as the browser declared it:
a mimetype and a byte length. -/
structure IncomingFile where
  mimetype : String
  size : Nat
deriving DecidableEq, Repr

/-- `req.file` as produced by the multer middleware: in memory-storage
mode `buffer` holds the byte length of the buffered body and `filename`
is absent; in disk-storage mode `filename` holds the generated name and
`buffer` is absent. -/
structure ReqFile where
  buffer : Option Nat
  filename : Option String
  size : Nat
  mimetype : String
deriving DecidableEq, Repr

/-- Oracle for the nondeterministic inputs of one upload request:
the freshly generated identifiers, the current time, and whether each
external effect fails. -/
structure Oracle where
  fileUuid : String
  submissionUuid : String
  now : Nat
  s3Fails : Bool
  s3ErrMsg : String
  dbFails : Bool
  outcomeFails : Bool
deriving DecidableEq, Repr

/-- The multer storage engine chosen at process start (line 59-83). -/
inductive StorageKind where
  | memoryStorage
  | diskStorage
deriving DecidableEq, Repr

/-- `storage` selection at process start: memory storage (feeding the
object store) if and only if both `AWS_ACCESS_KEY_ID` and
`AWS_SECRET_ACCESS_KEY` are set, otherwise local disk storage. -/
def selectStorage (env : Env) : StorageKind :=
  if env.awsAccessKeyId.isSome && env.awsSecretAccessKey.isSome then
    StorageKind.memoryStorage
  else
    StorageKind.diskStorage

/-- The multer `fileFilter` (line 90-96): accept when the declared
mimetype starts with `audio/` or equals `video/webm`; the prefix test
is modelled on the character list of the string. -/
def fileFilter (mimetype : String) : Bool :=
  "audio/".data.isPrefixOf mimetype.data || mimetype == "video/webm"

/-- The multer `limits.fileSize` bound: 50 MiB. -/
def fileSizeLimit : Nat := 50 * 1024 * 1024

/-- A file passes the multer middleware iff it passes the `fileFilter`
and does not exceed the size limit. -/
def multerAccepts (f : IncomingFile) : Bool :=
  fileFilter f.mimetype && f.size ≤ fileSizeLimit

/-- Result of the `upload.single` middleware: either the request is
rejected with a middleware error (handled by the application error
middleware), or `req.file` is populated. -/
inductive MulterResult where
  | rejected
  | accepted (f : ReqFile)
deriving DecidableEq, Repr

/-- The `upload.single` middleware: on acceptance, disk storage writes
the bytes to the uploads directory under a fresh generated name
`uuid ++ ".webm"` before the route handler runs; memory storage keeps
the bytes in `req.file.buffer`. On rejection no file is kept. -/
def multerSingle (env : Env) (file : IncomingFile) (fileUuid : String)
    (st : ServerState) : MulterResult × ServerState :=
  if multerAccepts file then
    match selectStorage env with
    | StorageKind.memoryStorage =>
        (MulterResult.accepted ⟨some file.size, none, file.size, file.mimetype⟩, st)
    | StorageKind.diskStorage =>
        let name := fileUuid ++ ".webm"
        (MulterResult.accepted ⟨none, some name, file.size, file.mimetype⟩,
          { st with localFiles := (name, file.size) :: st.localFiles })
  else
    (MulterResult.rejected, st)

/-- Response of `POST /upload-audio` (including the response the
application error middleware produces for a multer rejection). -/
inductive UploadResponse where
  | unauthorized (msg : String)
  | serverError (msg : String)
  | ok (submissionId audioUrl message : String)
deriving DecidableEq, Repr

/-- HTTP status of an upload response. -/
def UploadResponse.status : UploadResponse → Nat
  | UploadResponse.unauthorized _ => 401
  | UploadResponse.serverError _ => 500
  | UploadResponse.ok _ _ _ => 200

/-- The public object URL reported by the object-store SDK
(`result.Location`) for a bucket and key; abstracted as a function of
the environment's bucket and the key. -/
def s3Location (env : Env) (key : String) : String :=
  "https://" ++ env.s3BucketName.getD "undefined" ++ ".s3.amazonaws.com/" ++ key

/-- The `sendGradeToCanvas` helper: wraps the outcome-service send of a
grade in a try/catch, so every failure is only logged; the returned
Bool is the logged success, never propagated to any response. -/
def sendGradeToCanvas (fails : Bool) (ltiData : LtiSession) (grade : ℚ) : Bool :=
  if fails then false else (ltiData.consumerKey == ltiData.consumerKey) && grade == grade

/-- The complete outcome of one `POST /upload-audio` request: the
response, the resulting server state, the outcome-service calls made
(session data and grade of each), and the logged result of each call. -/
structure UploadOutcome where
  response : UploadResponse
  state : ServerState
  gradeCalls : List (LtiSession × ℚ)
  outcomeLog : List Bool
deriving DecidableEq, Repr

/-- The outcome-service invocation decided at line 186-188: one call
with the session data and the constant grade 1.0 if the session
carries `lisOutcomeServiceUrl`, no call otherwise. -/
def outcomeCalls (lti : LtiSession) : List (LtiSession × ℚ) :=
  match lti.lisOutcomeServiceUrl with
  | some _ => [(lti, (1 : ℚ))]
  | none => []

/-- The `POST /upload-audio` route handler body (line 137-202), run
after the multer middleware has populated `req.file`. -/
def uploadAudioHandler (env : Env) (session : Option LtiSession) (f : ReqFile)
    (o : Oracle) (st : ServerState) : UploadOutcome :=
  match session with
  | none =>
      ⟨UploadResponse.unauthorized "Session expired. Please relaunch from Canvas.",
        st, [], []⟩
  | some lti =>
      let submissionId := o.submissionUuid
      if f.buffer.isSome && env.awsAccessKeyId.isSome then
        let fileName := "audio-" ++ submissionId ++ ".webm"
        if o.s3Fails then
          ⟨UploadResponse.serverError ("Upload failed: " ++ o.s3ErrMsg), st, [], []⟩
        else
          let key := "submissions/" ++ fileName
          let audioUrl := s3Location env key
          let st1 := { st with s3Objects := (key, f.size) :: st.s3Objects }
          if o.dbFails then
            ⟨UploadResponse.serverError "Failed to save submission", st1, [], []⟩
          else
            let row : SubmissionRow :=
              ⟨submissionId, lti.userId, lti.courseId, lti.assignmentId,
                audioUrl, fileName, f.size, o.now⟩
            let st2 := { st1 with db := row :: st1.db }
            let calls := outcomeCalls lti
            ⟨UploadResponse.ok submissionId audioUrl "Recording submitted successfully!",
              st2, calls, calls.map (fun c => sendGradeToCanvas o.outcomeFails c.1 c.2)⟩
      else
        let fileName := f.filename.getD "undefined"
        let audioUrl := "/uploads/" ++ fileName
        if o.dbFails then
          ⟨UploadResponse.serverError "Failed to save submission", st, [], []⟩
        else
          let row : SubmissionRow :=
            ⟨submissionId, lti.userId, lti.courseId, lti.assignmentId,
              audioUrl, fileName, f.size, o.now⟩
          let st2 := { st with db := row :: st.db }
          let calls := outcomeCalls lti
          ⟨UploadResponse.ok submissionId audioUrl "Recording submitted successfully!",
            st2, calls, calls.map (fun c => sendGradeToCanvas o.outcomeFails c.1 c.2)⟩

/-- The full `POST /upload-audio` request pipeline: the multer
middleware first, then the route handler; a middleware rejection falls
through to the application error middleware (500, generic message). -/
def postUploadAudio (env : Env) (session : Option LtiSession) (file : IncomingFile)
    (o : Oracle) (st : ServerState) : UploadOutcome :=
  match multerSingle env file o.fileUuid st with
  | (MulterResult.rejected, st1) =>
      ⟨UploadResponse.serverError "Something went wrong!", st1, [], []⟩
  | (MulterResult.accepted f, st1) =>
      uploadAudioHandler env session f o st1

/-- Response of `GET /submission/:submissionId`. -/
inductive GetResponse where
  | unauthorized (msg : String)
  | notFound (msg : String)
  | ok (row : SubmissionRow)
deriving DecidableEq, Repr

/-- HTTP status of a get-by-id response. -/
def GetResponse.status : GetResponse → Nat
  | GetResponse.unauthorized _ => 401
  | GetResponse.notFound _ => 404
  | GetResponse.ok _ => 200

/-- `db.get` for `SELECT * FROM submissions WHERE id = ? AND user_id = ?`:
the first row matching both equalities, if any. -/
def dbGetById (db : List SubmissionRow) (sid uid : String) : Option SubmissionRow :=
  (db.filter (fun r => r.id == sid && r.user_id == uid)).head?

/-- The `GET /submission/:submissionId` handler (line 208-223).
Note the source's `if (err || !row)` branch: a database error and a
missing row produce the same 404 response. -/
def getSubmission (session : Option LtiSession) (dbErr : Bool)
    (db : List SubmissionRow) (sid : String) : GetResponse :=
  match session with
  | none => GetResponse.unauthorized "Session expired"
  | some lti =>
      if dbErr then
        GetResponse.notFound "Submission not found"
      else
        match dbGetById db sid lti.userId with
        | none => GetResponse.notFound "Submission not found"
        | some row => GetResponse.ok row

/-- The `WHERE user_id = ? AND course_id = ? AND assignment_id = ?`
predicate of the list query. -/
def matchesList (uid cid aid : String) (r : SubmissionRow) : Bool :=
  r.user_id == uid && r.course_id == cid && r.assignment_id == aid

/-- The `SELECT id, file_name, file_size, created_at` projection. -/
def projectRow (r : SubmissionRow) : SubmissionSummary :=
  ⟨r.id, r.file_name, r.file_size, r.created_at⟩

/-- Insert a row into a list kept in descending `created_at` order. -/
def insertRowDesc (r : SubmissionRow) : List SubmissionRow → List SubmissionRow
  | [] => [r]
  | x :: xs =>
      if r.created_at ≤ x.created_at then x :: insertRowDesc r xs
      else r :: x :: xs

/-- Sort rows by `created_at` descending (`ORDER BY created_at DESC`). -/
def sortByCreatedDesc : List SubmissionRow → List SubmissionRow
  | [] => []
  | x :: xs => insertRowDesc x (sortByCreatedDesc xs)

/-- `db.all` for the list query: filter on the session's identity
triple, order newest-first, project. -/
def dbAllQuery (db : List SubmissionRow) (uid cid aid : String) :
    List SubmissionSummary :=
  (sortByCreatedDesc (db.filter (matchesList uid cid aid))).map projectRow

/-- Response of `GET /submissions`. -/
inductive ListResponse where
  | unauthorized (msg : String)
  | serverError (msg : String)
  | ok (rows : List SubmissionSummary)
deriving DecidableEq, Repr

/-- HTTP status of a list response. -/
def ListResponse.status : ListResponse → Nat
  | ListResponse.unauthorized _ => 401
  | ListResponse.serverError _ => 500
  | ListResponse.ok _ => 200

/-- The `GET /submissions` handler (line 226-243). -/
def getSubmissions (session : Option LtiSession) (dbErr : Bool)
    (db : List SubmissionRow) : ListResponse :=
  match session with
  | none => ListResponse.unauthorized "Session expired"
  | some lti =>
      if dbErr then
        ListResponse.serverError "Database error"
      else
        ListResponse.ok (dbAllQuery db lti.userId lti.courseId lti.assignmentId)

/-- A metadata row is backed by a stored file in the given state:
its file name and size appear in the uploads directory, or the
corresponding object key appears in the object store. -/
def fileBacked (st : ServerState) (r : SubmissionRow) : Prop :=
  (r.file_name, r.file_size) ∈ st.localFiles ∨
    ("submissions/" ++ r.file_name, r.file_size) ∈ st.s3Objects

theorem insertRowDesc_perm (r : SubmissionRow) (l : List SubmissionRow) :
    List.Perm (insertRowDesc r l) (r :: l) := by
  induction l with
  | nil => exact List.Perm.refl _
  | cons x xs ih =>
      simp only [insertRowDesc]
      split
      · exact (ih.cons x).trans (List.Perm.swap r x xs)
      · exact List.Perm.refl _

theorem sortByCreatedDesc_perm (l : List SubmissionRow) :
    List.Perm (sortByCreatedDesc l) l := by
  induction l with
  | nil => exact List.Perm.refl _
  | cons x xs ih => exact (insertRowDesc_perm x _).trans (ih.cons x)

theorem mem_insertRowDesc {y r : SubmissionRow} {l : List SubmissionRow}
    (h : y ∈ insertRowDesc r l) : y = r ∨ y ∈ l := by
  have h2 := (insertRowDesc_perm r l).mem_iff.mp h
  simpa using h2

theorem sorted_insertRowDesc (r : SubmissionRow) (l : List SubmissionRow)
    (h : l.Sorted (fun a b => b.created_at ≤ a.created_at)) :
    (insertRowDesc r l).Sorted (fun a b => b.created_at ≤ a.created_at) := by
  induction l with
  | nil => simp [insertRowDesc]
  | cons x xs ih =>
      rw [List.sorted_cons] at h
      obtain ⟨hx, hxs⟩ := h
      simp only [insertRowDesc]
      split
      · rename_i hle
        rw [List.sorted_cons]
        refine ⟨?_, ih hxs⟩
        intro y hy
        rcases mem_insertRowDesc hy with rfl | hmem
        · exact hle
        · exact hx y hmem
      · rename_i hle
        rw [List.sorted_cons]
        refine ⟨?_, List.sorted_cons.mpr ⟨hx, hxs⟩⟩
        intro y hy
        rcases List.mem_cons.mp hy with rfl | hmem
        · exact Nat.le_of_lt (Nat.lt_of_not_le hle)
        · exact Nat.le_trans (hx y hmem) (Nat.le_of_lt (Nat.lt_of_not_le hle))

theorem sortByCreatedDesc_sorted (l : List SubmissionRow) :
    (sortByCreatedDesc l).Sorted (fun a b => b.created_at ≤ a.created_at) := by
  induction l with
  | nil => simp [sortByCreatedDesc]
  | cons x xs ih => exact sorted_insertRowDesc x _ ih

theorem head?_filter_mem {p : SubmissionRow → Bool} {l : List SubmissionRow}
    {r : SubmissionRow} (h : (l.filter p).head? = some r) :
    r ∈ l ∧ p r = true := by
  have hmem : r ∈ l.filter p := by
    cases hl : l.filter p with
    | nil => rw [hl] at h; exact absurd h (by simp)
    | cons a t =>
        rw [hl] at h
        have ha : a = r := by simpa using h
        rw [← ha]
        exact List.mem_cons_self a t
  exact ⟨(List.mem_filter.mp hmem).1, (List.mem_filter.mp hmem).2⟩

/-- C5: with an active session, `GET /submission/:id` returns a row only
if that row is in the table, is owned by the session's user and has the
requested id; when the id is absent or the row is owned by a different
user, the response is the identical 404 not-found body, and no response
of this endpoint ever has a forbidden (403) status. -/
theorem get_submission_owner_scoped (lti : LtiSession) (db : List SubmissionRow)
    (sid : String) :
    (∀ row, getSubmission (some lti) false db sid = GetResponse.ok row →
      row ∈ db ∧ row.user_id = lti.userId ∧ row.id = sid) ∧
    ((∀ r ∈ db, ¬(r.id = sid ∧ r.user_id = lti.userId)) →
      getSubmission (some lti) false db sid =
        GetResponse.notFound "Submission not found") ∧
    (∀ dbErr, (getSubmission (some lti) dbErr db sid).status ≠ 403) := by
  refine ⟨?_, ?_, ?_⟩
  · intro row hok
    cases hq : dbGetById db sid lti.userId with
    | none => simp [getSubmission, hq] at hok
    | some row2 =>
        simp only [getSubmission, if_neg (by simp : ¬(false = true)), hq] at hok
        obtain rfl : row2 = row := by
          cases hok
          rfl
        have hp := head?_filter_mem (p := fun r => r.id == sid && r.user_id == lti.userId) hq
        refine ⟨hp.1, ?_, ?_⟩
        · have := hp.2
          simp only [Bool.and_eq_true, beq_iff_eq] at this
          exact this.2
        · have := hp.2
          simp only [Bool.and_eq_true, beq_iff_eq] at this
          exact this.1
  · intro hnone
    have hfil : db.filter (fun r => r.id == sid && r.user_id == lti.userId) = [] := by
      rw [List.filter_eq_nil_iff]
      intro r hr
      have := hnone r hr
      simp only [Bool.and_eq_true, beq_iff_eq]
      exact fun hc => this ⟨hc.1, hc.2⟩
    simp [getSubmission, dbGetById, hfil]
  · intro dbErr
    cases dbErr with
    | true => simp [getSubmission, GetResponse.status]
    | false =>
        cases hq : dbGetById db sid lti.userId <;>
          simp [getSubmission, hq, GetResponse.status]

/-- C6: with an active session, `GET /submissions` returns exactly the
projections of the rows matching the session's user, course and
assignment, ordered newest-first by creation timestamp, each entry
carrying only id, file name, file size and timestamp; a row visible to
one session is never visible to a session with a different user id. -/
theorem list_submissions_scoped_sorted (lti : LtiSession) (db : List SubmissionRow) :
    (∃ rows, getSubmissions (some lti) false db = ListResponse.ok rows ∧
      List.Perm rows
        ((db.filter (matchesList lti.userId lti.courseId lti.assignmentId)).map projectRow) ∧
      rows.Sorted (fun a b => b.created_at ≤ a.created_at)) ∧
    (∀ other : LtiSession, other.userId ≠ lti.userId → ∀ r ∈ db,
      matchesList lti.userId lti.courseId lti.assignmentId r = true →
      matchesList other.userId other.courseId other.assignmentId r = false) := by
  constructor
  · refine ⟨dbAllQuery db lti.userId lti.courseId lti.assignmentId, ?_, ?_, ?_⟩
    · simp [getSubmissions]
    · exact List.Perm.map projectRow
        (sortByCreatedDesc_perm (db.filter (matchesList lti.userId lti.courseId lti.assignmentId)))
    · have hs := sortByCreatedDesc_sorted
        (db.filter (matchesList lti.userId lti.courseId lti.assignmentId))
      exact List.Pairwise.map projectRow (fun a b hab => hab) hs
  · intro other hne r hr h1
    simp only [matchesList, Bool.and_eq_true, beq_iff_eq] at h1
    cases h2 : matchesList other.userId other.courseId other.assignmentId r with
    | false => rfl
    | true =>
        simp only [matchesList, Bool.and_eq_true, beq_iff_eq] at h2
        exact absurd (h2.1.1.symm.trans h1.1.1) hne


theorem selectStorage_mem_iff (env : Env) :
    selectStorage env = StorageKind.memoryStorage ↔
      (env.awsAccessKeyId.isSome && env.awsSecretAccessKey.isSome) = true := by
  unfold selectStorage
  split <;> rename_i h <;> simp [h]

theorem multerSingle_mem (env : Env) (file : IncomingFile) (u : String)
    (st : ServerState) (hacc : multerAccepts file = true)
    (hsel : selectStorage env = StorageKind.memoryStorage) :
    multerSingle env file u st =
      (MulterResult.accepted ⟨some file.size, none, file.size, file.mimetype⟩, st) := by
  unfold multerSingle
  rw [if_pos hacc, hsel]

theorem multerSingle_disk (env : Env) (file : IncomingFile) (u : String)
    (st : ServerState) (hacc : multerAccepts file = true)
    (hsel : selectStorage env = StorageKind.diskStorage) :
    multerSingle env file u st =
      (MulterResult.accepted ⟨none, some (u ++ ".webm"), file.size, file.mimetype⟩,
        { st with localFiles := (u ++ ".webm", file.size) :: st.localFiles }) := by
  unfold multerSingle
  rw [if_pos hacc, hsel]

theorem multerSingle_rej (env : Env) (file : IncomingFile) (u : String)
    (st : ServerState) (hacc : multerAccepts file = false) :
    multerSingle env file u st = (MulterResult.rejected, st) := by
  unfold multerSingle
  rw [if_neg]
  simp [hacc]

theorem postUploadAudio_acc (env : Env) (session : Option LtiSession)
    (file : IncomingFile) (o : Oracle) (st st1 : ServerState) (f : ReqFile)
    (h : multerSingle env file o.fileUuid st = (MulterResult.accepted f, st1)) :
    postUploadAudio env session file o st = uploadAudioHandler env session f o st1 := by
  unfold postUploadAudio
  rw [h]

theorem postUploadAudio_rej (env : Env) (session : Option LtiSession)
    (file : IncomingFile) (o : Oracle) (st st1 : ServerState)
    (h : multerSingle env file o.fileUuid st = (MulterResult.rejected, st1)) :
    postUploadAudio env session file o st =
      ⟨UploadResponse.serverError "Something went wrong!", st1, [], []⟩ := by
  unfold postUploadAudio
  rw [h]

theorem uploadAudioHandler_none (env : Env) (f : ReqFile) (o : Oracle)
    (st : ServerState) :
    uploadAudioHandler env none f o st =
      ⟨UploadResponse.unauthorized "Session expired. Please relaunch from Canvas.",
        st, [], []⟩ := by
  unfold uploadAudioHandler
  rfl

theorem uploadAudioHandler_s3_fail (env : Env) (lti : LtiSession) (f : ReqFile)
    (o : Oracle) (st : ServerState)
    (hc : (f.buffer.isSome && env.awsAccessKeyId.isSome) = true)
    (hs3 : o.s3Fails = true) :
    uploadAudioHandler env (some lti) f o st =
      ⟨UploadResponse.serverError ("Upload failed: " ++ o.s3ErrMsg), st, [], []⟩ := by
  unfold uploadAudioHandler
  simp only [hc, hs3, if_true]

theorem uploadAudioHandler_s3_db_fail (env : Env) (lti : LtiSession) (f : ReqFile)
    (o : Oracle) (st : ServerState)
    (hc : (f.buffer.isSome && env.awsAccessKeyId.isSome) = true)
    (hs3 : o.s3Fails = false) (hdb : o.dbFails = true) :
    uploadAudioHandler env (some lti) f o st =
      ⟨UploadResponse.serverError "Failed to save submission",
        { st with s3Objects :=
            ("submissions/" ++ ("audio-" ++ o.submissionUuid ++ ".webm"), f.size)
              :: st.s3Objects },
        [], []⟩ := by
  unfold uploadAudioHandler
  simp only [hc, hs3, hdb, if_true, Bool.false_eq_true, if_false]

theorem uploadAudioHandler_s3_ok (env : Env) (lti : LtiSession) (f : ReqFile)
    (o : Oracle) (st : ServerState)
    (hc : (f.buffer.isSome && env.awsAccessKeyId.isSome) = true)
    (hs3 : o.s3Fails = false) (hdb : o.dbFails = false) :
    uploadAudioHandler env (some lti) f o st =
      ⟨UploadResponse.ok o.submissionUuid
          (s3Location env ("submissions/" ++ ("audio-" ++ o.submissionUuid ++ ".webm")))
          "Recording submitted successfully!",
        { db := (⟨o.submissionUuid, lti.userId, lti.courseId, lti.assignmentId,
              s3Location env ("submissions/" ++ ("audio-" ++ o.submissionUuid ++ ".webm")),
              "audio-" ++ o.submissionUuid ++ ".webm", f.size, o.now⟩ : SubmissionRow)
            :: st.db,
          localFiles := st.localFiles,
          s3Objects :=
            ("submissions/" ++ ("audio-" ++ o.submissionUuid ++ ".webm"), f.size)
              :: st.s3Objects },
        outcomeCalls lti,
        (outcomeCalls lti).map (fun c => sendGradeToCanvas o.outcomeFails c.1 c.2)⟩ := by
  unfold uploadAudioHandler
  simp only [hc, hs3, hdb, if_true, Bool.false_eq_true, if_false]

theorem uploadAudioHandler_local_db_fail (env : Env) (lti : LtiSession) (f : ReqFile)
    (o : Oracle) (st : ServerState)
    (hc : (f.buffer.isSome && env.awsAccessKeyId.isSome) = false)
    (hdb : o.dbFails = true) :
    uploadAudioHandler env (some lti) f o st =
      ⟨UploadResponse.serverError "Failed to save submission", st, [], []⟩ := by
  unfold uploadAudioHandler
  simp only [hc, hdb, if_true, Bool.false_eq_true, if_false]

theorem uploadAudioHandler_local_ok (env : Env) (lti : LtiSession) (f : ReqFile)
    (o : Oracle) (st : ServerState)
    (hc : (f.buffer.isSome && env.awsAccessKeyId.isSome) = false)
    (hdb : o.dbFails = false) :
    uploadAudioHandler env (some lti) f o st =
      ⟨UploadResponse.ok o.submissionUuid
          ("/uploads/" ++ f.filename.getD "undefined")
          "Recording submitted successfully!",
        { db := (⟨o.submissionUuid, lti.userId, lti.courseId, lti.assignmentId,
              "/uploads/" ++ f.filename.getD "undefined",
              f.filename.getD "undefined", f.size, o.now⟩ : SubmissionRow)
            :: st.db,
          localFiles := st.localFiles,
          s3Objects := st.s3Objects },
        outcomeCalls lti,
        (outcomeCalls lti).map (fun c => sendGradeToCanvas o.outcomeFails c.1 c.2)⟩ := by
  unfold uploadAudioHandler
  simp only [hc, hdb, if_true, Bool.false_eq_true, if_false]

theorem mem_mode_key (env : Env)
    (hsel : selectStorage env = StorageKind.memoryStorage) :
    env.awsAccessKeyId.isSome = true := by
  have h := (selectStorage_mem_iff env).mp hsel
  simp only [Bool.and_eq_true] at h
  exact h.1

theorem outcomeCalls_eq (lti : LtiSession) :
    outcomeCalls lti =
      if lti.lisOutcomeServiceUrl.isSome then [(lti, (1 : ℚ))] else [] := by
  unfold outcomeCalls
  cases h : lti.lisOutcomeServiceUrl <;> simp

theorem multerAccepts_false_of_not_true (file : IncomingFile)
    (h : ¬multerAccepts file = true) : multerAccepts file = false := by
  cases hb : multerAccepts file
  · rfl
  · exact absurd hb h

/-- C1: for every accepted upload (active session, file passing the
type and size checks, storage and database both succeeding), exactly
one metadata row is prepended to the table, its file_size equal to the
uploaded byte length and its user, course and assignment equal to the
session's values, and the response is success carrying the generated
submission id and the storage URL recorded in that row. -/
theorem upload_accepted_inserts_row (env : Env) (lti : LtiSession)
    (file : IncomingFile) (o : Oracle) (st : ServerState)
    (hacc : multerAccepts file = true) (hs3 : o.s3Fails = false)
    (hdb : o.dbFails = false) :
    ∃ url fname,
      (postUploadAudio env (some lti) file o st).response =
        UploadResponse.ok o.submissionUuid url "Recording submitted successfully!" ∧
      (postUploadAudio env (some lti) file o st).state.db =
        { id := o.submissionUuid, user_id := lti.userId, course_id := lti.courseId,
          assignment_id := lti.assignmentId, audio_url := url, file_name := fname,
          file_size := file.size, created_at := o.now } :: st.db := by
  cases hsel : selectStorage env with
  | memoryStorage =>
      have hc : (((⟨some file.size, none, file.size, file.mimetype⟩ : ReqFile)).buffer.isSome
          && env.awsAccessKeyId.isSome) = true := by
        simp [mem_mode_key env hsel]
      rw [postUploadAudio_acc env (some lti) file o st st _
            (multerSingle_mem env file o.fileUuid st hacc hsel),
        uploadAudioHandler_s3_ok env lti _ o st hc hs3 hdb]
      exact ⟨_, _, rfl, rfl⟩
  | diskStorage =>
      have hc : (((⟨none, some (o.fileUuid ++ ".webm"), file.size, file.mimetype⟩ :
          ReqFile)).buffer.isSome && env.awsAccessKeyId.isSome) = false := rfl
      rw [postUploadAudio_acc env (some lti) file o st _ _
            (multerSingle_disk env file o.fileUuid st hacc hsel),
        uploadAudioHandler_local_ok env lti _ o _ hc hdb]
      exact ⟨_, _, rfl, rfl⟩

/-- C2: a file is passed through by the upload middleware iff its
mimetype starts with audio/ or equals video/webm and its size is at
most 50 MiB; an upload failing either check changes neither the stored
files nor the table. -/
theorem upload_filter_and_no_effects (env : Env) (session : Option LtiSession)
    (file : IncomingFile) (o : Oracle) (st : ServerState) :
    ((∃ f st1, multerSingle env file o.fileUuid st = (MulterResult.accepted f, st1)) ↔
      (("audio/".data.isPrefixOf file.mimetype.data = true ∨
          file.mimetype = "video/webm") ∧
        file.size ≤ 50 * 1024 * 1024)) ∧
    (multerAccepts file = false →
      (postUploadAudio env session file o st).state = st) := by
  constructor
  · constructor
    · rintro ⟨f, st1, h⟩
      by_cases hacc : multerAccepts file = true
      · simp only [multerAccepts, fileFilter, Bool.and_eq_true, Bool.or_eq_true,
          beq_iff_eq, decide_eq_true_eq] at hacc
        exact ⟨hacc.1, hacc.2⟩
      · rw [multerSingle_rej env file o.fileUuid st
            (multerAccepts_false_of_not_true file hacc)] at h
        injection h with h1 h2
        cases h1
    · intro hprops
      have hacc : multerAccepts file = true := by
        simp only [multerAccepts, fileFilter, Bool.and_eq_true, Bool.or_eq_true,
          beq_iff_eq, decide_eq_true_eq]
        exact ⟨hprops.1, hprops.2⟩
      cases hsel : selectStorage env with
      | memoryStorage => exact ⟨_, _, multerSingle_mem env file o.fileUuid st hacc hsel⟩
      | diskStorage => exact ⟨_, _, multerSingle_disk env file o.fileUuid st hacc hsel⟩
  · intro hacc
    rw [postUploadAudio_rej env session file o st st
      (multerSingle_rej env file o.fileUuid st hacc)]

/-- C3 (amended): an upload without an active session whose file passes
the type and size checks is answered 401 with the relaunch message; an
upload without a session whose file fails those checks is rejected by
the multer middleware before the session guard runs and answered 500 by
the error middleware with its generic message; and an upload without a
session never writes a metadata row whether or not the file passes the
checks. -/
theorem upload_no_session_unauthorized (env : Env) (file : IncomingFile)
    (o : Oracle) (st : ServerState) :
    (multerAccepts file = true →
      (postUploadAudio env none file o st).response =
        UploadResponse.unauthorized "Session expired. Please relaunch from Canvas." ∧
      (postUploadAudio env none file o st).response.status = 401) ∧
    (multerAccepts file = false →
      (postUploadAudio env none file o st).response =
        UploadResponse.serverError "Something went wrong!" ∧
      (postUploadAudio env none file o st).response.status = 500) ∧
    (postUploadAudio env none file o st).state.db = st.db := by
  refine ⟨?_, ?_, ?_⟩
  · intro hacc
    cases hsel : selectStorage env with
    | memoryStorage =>
        rw [postUploadAudio_acc env none file o st _ _
              (multerSingle_mem env file o.fileUuid st hacc hsel),
          uploadAudioHandler_none]
        exact ⟨rfl, rfl⟩
    | diskStorage =>
        rw [postUploadAudio_acc env none file o st _ _
              (multerSingle_disk env file o.fileUuid st hacc hsel),
          uploadAudioHandler_none]
        exact ⟨rfl, rfl⟩
  · intro hacc
    rw [postUploadAudio_rej env none file o st st
      (multerSingle_rej env file o.fileUuid st hacc)]
    exact ⟨rfl, rfl⟩
  · by_cases hacc : multerAccepts file = true
    · cases hsel : selectStorage env with
      | memoryStorage =>
          rw [postUploadAudio_acc env none file o st _ _
                (multerSingle_mem env file o.fileUuid st hacc hsel),
            uploadAudioHandler_none]
      | diskStorage =>
          rw [postUploadAudio_acc env none file o st _ _
                (multerSingle_disk env file o.fileUuid st hacc hsel),
            uploadAudioHandler_none]
    · rw [postUploadAudio_rej env none file o st st
        (multerSingle_rej env file o.fileUuid st
          (multerAccepts_false_of_not_true file hacc))]

/-- C4: the storage operation precedes the database insert and a
storage failure short-circuits: when the object-store write fails the
response is a 500 failure and the whole state (table and stores) is
unchanged; and in every outcome of the upload pipeline each metadata
row either predates the request or is backed by a stored file in the
resulting state, so a metadata row without its stored file is never
committed. -/
theorem storage_failure_short_circuits (env : Env) (lti : LtiSession)
    (file : IncomingFile) (o : Oracle) (st : ServerState) :
    (o.s3Fails = true → multerAccepts file = true →
      selectStorage env = StorageKind.memoryStorage →
      (postUploadAudio env (some lti) file o st).response.status = 500 ∧
      (postUploadAudio env (some lti) file o st).state = st) ∧
    (∀ row ∈ (postUploadAudio env (some lti) file o st).state.db,
      row ∈ st.db ∨ fileBacked (postUploadAudio env (some lti) file o st).state row) := by
  constructor
  · intro hs3 hacc hsel
    have hc : (((⟨some file.size, none, file.size, file.mimetype⟩ : ReqFile)).buffer.isSome
        && env.awsAccessKeyId.isSome) = true := by
      simp [mem_mode_key env hsel]
    rw [postUploadAudio_acc env (some lti) file o st st _
          (multerSingle_mem env file o.fileUuid st hacc hsel),
      uploadAudioHandler_s3_fail env lti _ o st hc hs3]
    exact ⟨rfl, rfl⟩
  · by_cases hacc : multerAccepts file = true
    · cases hsel : selectStorage env with
      | memoryStorage =>
          have hc : (((⟨some file.size, none, file.size, file.mimetype⟩ : ReqFile)).buffer.isSome
              && env.awsAccessKeyId.isSome) = true := by
            simp [mem_mode_key env hsel]
          rw [postUploadAudio_acc env (some lti) file o st st _
            (multerSingle_mem env file o.fileUuid st hacc hsel)]
          cases hs3 : o.s3Fails with
          | true =>
              rw [uploadAudioHandler_s3_fail env lti _ o st hc hs3]
              intro row hrow
              exact Or.inl hrow
          | false =>
              cases hdb : o.dbFails with
              | true =>
                  rw [uploadAudioHandler_s3_db_fail env lti _ o st hc hs3 hdb]
                  intro row hrow
                  exact Or.inl hrow
              | false =>
                  rw [uploadAudioHandler_s3_ok env lti _ o st hc hs3 hdb]
                  intro row hrow
                  rcases List.mem_cons.mp hrow with rfl | hmem
                  · exact Or.inr (Or.inr (List.mem_cons_self _ _))
                  · exact Or.inl hmem
      | diskStorage =>
          have hc : (((⟨none, some (o.fileUuid ++ ".webm"), file.size, file.mimetype⟩ :
              ReqFile)).buffer.isSome && env.awsAccessKeyId.isSome) = false := rfl
          rw [postUploadAudio_acc env (some lti) file o st _ _
            (multerSingle_disk env file o.fileUuid st hacc hsel)]
          cases hdb : o.dbFails with
          | true =>
              rw [uploadAudioHandler_local_db_fail env lti _ o _ hc hdb]
              intro row hrow
              exact Or.inl hrow
          | false =>
              rw [uploadAudioHandler_local_ok env lti _ o _ hc hdb]
              intro row hrow
              rcases List.mem_cons.mp hrow with rfl | hmem
              · exact Or.inr (Or.inl (List.mem_cons_self _ _))
              · exact Or.inl hmem
    · rw [postUploadAudio_rej env (some lti) file o st st
        (multerSingle_rej env file o.fileUuid st
          (multerAccepts_false_of_not_true file hacc))]
      intro row hrow
      exact Or.inl hrow

/-- C7: the object-store backend is selected at process start iff both
credential variables are present, otherwise local disk; and for every
file the middleware accepts, the handler's per-request storage branch
coincides with that startup selection, so the choice is determined by
the environment and never varies per request. -/
theorem storage_selection_deterministic (env : Env) :
    (selectStorage env = StorageKind.memoryStorage ↔
      (env.awsAccessKeyId.isSome = true ∧ env.awsSecretAccessKey.isSome = true)) ∧
    (∀ file u st f st1,
      multerSingle env file u st = (MulterResult.accepted f, st1) →
      ((f.buffer.isSome && env.awsAccessKeyId.isSome) = true ↔
        selectStorage env = StorageKind.memoryStorage)) := by
  constructor
  · rw [selectStorage_mem_iff]
    simp only [Bool.and_eq_true]
  · intro file u st f st1 h
    by_cases hacc : multerAccepts file = true
    · cases hsel : selectStorage env with
      | memoryStorage =>
          rw [multerSingle_mem env file u st hacc hsel] at h
          injection h with h1 h2
          injection h1 with h1
          subst h1
          simp [mem_mode_key env hsel, hsel]
      | diskStorage =>
          rw [multerSingle_disk env file u st hacc hsel] at h
          injection h with h1 h2
          injection h1 with h1
          subst h1
          simp [hsel]
    · rw [multerSingle_rej env file u st
        (multerAccepts_false_of_not_true file hacc)] at h
      injection h with h1 h2
      cases h1

/-- C8: after a successful upload the outcome reporter is called
exactly when the session carries an outcome-service URL, with the
constant grade 1.0; no call is made on any failed upload; and the
success or failure of the outcome service never alters the response or
the state of the upload. -/
theorem outcome_reporter_best_effort (env : Env) (lti : LtiSession)
    (file : IncomingFile) (o : Oracle) (st : ServerState) :
    ((postUploadAudio env (some lti) file o st).response.status = 200 →
      (postUploadAudio env (some lti) file o st).gradeCalls =
        if lti.lisOutcomeServiceUrl.isSome then [(lti, (1 : ℚ))] else []) ∧
    ((postUploadAudio env (some lti) file o st).response.status ≠ 200 →
      (postUploadAudio env (some lti) file o st).gradeCalls = []) ∧
    (∀ b : Bool,
      (postUploadAudio env (some lti) file { o with outcomeFails := b } st).response =
        (postUploadAudio env (some lti) file o st).response ∧
      (postUploadAudio env (some lti) file { o with outcomeFails := b } st).state =
        (postUploadAudio env (some lti) file o st).state) := by
  by_cases hacc : multerAccepts file = true
  · cases hsel : selectStorage env with
    | memoryStorage =>
        have hc : (((⟨some file.size, none, file.size, file.mimetype⟩ : ReqFile)).buffer.isSome
            && env.awsAccessKeyId.isSome) = true := by
          simp [mem_mode_key env hsel]
        rcases Bool.dichotomy o.s3Fails with hs3 | hs3
        · rcases Bool.dichotomy o.dbFails with hdb | hdb
          · rw [postUploadAudio_acc env (some lti) file o st st _
                  (multerSingle_mem env file o.fileUuid st hacc hsel),
              uploadAudioHandler_s3_ok env lti _ o st hc hs3 hdb]
            refine ⟨fun _ => outcomeCalls_eq lti, fun h => absurd rfl h, fun b => ?_⟩
            rw [postUploadAudio_acc env (some lti) file { o with outcomeFails := b } st st _
                  (multerSingle_mem env file o.fileUuid st hacc hsel),
              uploadAudioHandler_s3_ok env lti _ { o with outcomeFails := b } st hc hs3 hdb]
            exact ⟨rfl, rfl⟩
          · rw [postUploadAudio_acc env (some lti) file o st st _
                  (multerSingle_mem env file o.fileUuid st hacc hsel),
              uploadAudioHandler_s3_db_fail env lti _ o st hc hs3 hdb]
            refine ⟨fun h => absurd h (by simp [UploadResponse.status]),
              fun _ => rfl, fun b => ?_⟩
            rw [postUploadAudio_acc env (some lti) file { o with outcomeFails := b } st st _
                  (multerSingle_mem env file o.fileUuid st hacc hsel),
              uploadAudioHandler_s3_db_fail env lti _ { o with outcomeFails := b } st hc hs3 hdb]
            exact ⟨rfl, rfl⟩
        · rw [postUploadAudio_acc env (some lti) file o st st _
                (multerSingle_mem env file o.fileUuid st hacc hsel),
            uploadAudioHandler_s3_fail env lti _ o st hc hs3]
          refine ⟨fun h => absurd h (by simp [UploadResponse.status]),
            fun _ => rfl, fun b => ?_⟩
          rw [postUploadAudio_acc env (some lti) file { o with outcomeFails := b } st st _
                (multerSingle_mem env file o.fileUuid st hacc hsel),
            uploadAudioHandler_s3_fail env lti _ { o with outcomeFails := b } st hc hs3]
          exact ⟨rfl, rfl⟩
    | diskStorage =>
        have hc : (((⟨none, some (o.fileUuid ++ ".webm"), file.size, file.mimetype⟩ :
            ReqFile)).buffer.isSome && env.awsAccessKeyId.isSome) = false := rfl
        rcases Bool.dichotomy o.dbFails with hdb | hdb
        · rw [postUploadAudio_acc env (some lti) file o st _ _
                (multerSingle_disk env file o.fileUuid st hacc hsel),
            uploadAudioHandler_local_ok env lti _ o _ hc hdb]
          refine ⟨fun _ => outcomeCalls_eq lti, fun h => absurd rfl h, fun b => ?_⟩
          rw [postUploadAudio_acc env (some lti) file { o with outcomeFails := b } st _ _
                (multerSingle_disk env file o.fileUuid st hacc hsel),
            uploadAudioHandler_local_ok env lti _ { o with outcomeFails := b } _ hc hdb]
          exact ⟨rfl, rfl⟩
        · rw [postUploadAudio_acc env (some lti) file o st _ _
                (multerSingle_disk env file o.fileUuid st hacc hsel),
            uploadAudioHandler_local_db_fail env lti _ o _ hc hdb]
          refine ⟨fun h => absurd h (by simp [UploadResponse.status]),
            fun _ => rfl, fun b => ?_⟩
          rw [postUploadAudio_acc env (some lti) file { o with outcomeFails := b } st _ _
                (multerSingle_disk env file o.fileUuid st hacc hsel),
            uploadAudioHandler_local_db_fail env lti _ { o with outcomeFails := b } _ hc hdb]
          exact ⟨rfl, rfl⟩
  · have hacc2 := multerAccepts_false_of_not_true file hacc
    rw [postUploadAudio_rej env (some lti) file o st st
      (multerSingle_rej env file o.fileUuid st hacc2)]
    refine ⟨fun h => absurd h (by simp [UploadResponse.status]),
      fun _ => rfl, fun b => ?_⟩
    rw [postUploadAudio_rej env (some lti) file { o with outcomeFails := b } st st
      (multerSingle_rej env file o.fileUuid st hacc2)]
    exact ⟨rfl, rfl⟩

/-- C9 (amended): a database failure yields a 500 response with a
generic message and no row committed for the upload insert and for the
list query; the get-by-id handler instead folds a database error into
its not-found branch (the source's `err || !row` test), so its response
there is the generic 404, not a 500. -/
theorem db_failure_responses (env : Env) (lti : LtiSession) (file : IncomingFile)
    (o : Oracle) (st : ServerState) (db : List SubmissionRow) (sid : String)
    (hdbo : o.dbFails = true) (hacc : multerAccepts file = true)
    (hs3 : o.s3Fails = false) :
    ((postUploadAudio env (some lti) file o st).response =
        UploadResponse.serverError "Failed to save submission" ∧
      (postUploadAudio env (some lti) file o st).response.status = 500 ∧
      (postUploadAudio env (some lti) file o st).state.db = st.db) ∧
    (getSubmissions (some lti) true db = ListResponse.serverError "Database error" ∧
      (getSubmissions (some lti) true db).status = 500) ∧
    (getSubmission (some lti) true db sid =
        GetResponse.notFound "Submission not found" ∧
      (getSubmission (some lti) true db sid).status = 404) := by
  refine ⟨?_, ⟨rfl, rfl⟩, ⟨rfl, rfl⟩⟩
  cases hsel : selectStorage env with
  | memoryStorage =>
      have hc : (((⟨some file.size, none, file.size, file.mimetype⟩ : ReqFile)).buffer.isSome
          && env.awsAccessKeyId.isSome) = true := by
        simp [mem_mode_key env hsel]
      rw [postUploadAudio_acc env (some lti) file o st st _
            (multerSingle_mem env file o.fileUuid st hacc hsel),
        uploadAudioHandler_s3_db_fail env lti _ o st hc hs3 hdbo]
      exact ⟨rfl, rfl, rfl⟩
  | diskStorage =>
      have hc : (((⟨none, some (o.fileUuid ++ ".webm"), file.size, file.mimetype⟩ :
          ReqFile)).buffer.isSome && env.awsAccessKeyId.isSome) = false := rfl
      rw [postUploadAudio_acc env (some lti) file o st _ _
            (multerSingle_disk env file o.fileUuid st hacc hsel),
        uploadAudioHandler_local_db_fail env lti _ o _ hc hdbo]
      exact ⟨rfl, rfl, rfl⟩

/-- C10: in local-storage mode the file-receiving middleware runs
before the session guard: an upload without an active session whose
file passes the type and size checks still has its bytes written to the
uploads directory under the fresh generated name, while the response is
401 and the table is unchanged. -/
theorem local_mode_unauth_upload_writes_file (env : Env) (file : IncomingFile)
    (o : Oracle) (st : ServerState)
    (hsel : selectStorage env = StorageKind.diskStorage)
    (hacc : multerAccepts file = true)
    (hfresh : ∀ s, (o.fileUuid ++ ".webm", s) ∉ st.localFiles) :
    (postUploadAudio env none file o st).state.localFiles =
      (o.fileUuid ++ ".webm", file.size) :: st.localFiles ∧
    (o.fileUuid ++ ".webm", file.size) ∉ st.localFiles ∧
    (postUploadAudio env none file o st).response.status = 401 ∧
    (postUploadAudio env none file o st).state.db = st.db := by
  rw [postUploadAudio_acc env none file o st _ _
        (multerSingle_disk env file o.fileUuid st hacc hsel),
    uploadAudioHandler_none]
  exact ⟨rfl, hfresh file.size, rfl, rfl⟩

/-- Example environment without object-store credentials (local mode). -/
def envLocal : Env := ⟨none, none, none, none⟩

/-- Example environment with object-store credentials and a bucket. -/
def envS3 : Env := ⟨some "AKIA", some "SECRET", some "us-east-1", some "bucket"⟩

/-- Example session established by a successful launch, carrying an
outcome-service callback. -/
def ltiEx : LtiSession :=
  ⟨"u1", "c1", "a1", "Learner", some "sourced", some "http://lms/outcome", "key"⟩

/-- Example session of a second user in the same course and assignment. -/
def ltiEx2 : LtiSession := ⟨"u2", "c1", "a1", "Learner", none, none, "key"⟩

/-- A small recorded audio file. -/
def fileEx : IncomingFile := ⟨"audio/webm", 2048⟩

/-- A text file rejected by the type filter. -/
def fileTxt : IncomingFile := ⟨"text/plain", 4⟩

/-- Oracle with all external effects succeeding. -/
def oracleEx : Oracle := ⟨"f1", "s1", 10, false, "boom", false, false⟩

/-- Oracle whose object-store write fails. -/
def oracleS3Fail : Oracle := ⟨"f1", "s1", 10, true, "boom", false, false⟩

/-- Oracle whose database insert fails. -/
def oracleDbFail : Oracle := ⟨"f1", "s1", 10, false, "boom", true, false⟩

/-- Empty initial server state. -/
def stEx : ServerState := ⟨[], [], []⟩

/-- A stored row owned by user u2. -/
def rowEx2 : SubmissionRow :=
  ⟨"s2", "u2", "c1", "a1", "/uploads/g.webm", "g.webm", 99, 5⟩

/-- C3 counterexample: an upload request without an active session
whose file fails the type filter is answered by the error middleware
with status 500, not 401 — the multer middleware rejects before the
session guard runs, so the claim's unconditional 401 is false. -/
theorem upload_no_session_not_always_401 :
    (postUploadAudio envLocal none fileTxt oracleEx stEx).response.status = 500 ∧
    ¬(postUploadAudio envLocal none fileTxt oracleEx stEx).response.status = 401 := by
  constructor <;> decide

/-- C9 counterexample: at a concrete input, a database failure in the
get-by-id query produces status 404 with the not-found body, not the
claimed 500. -/
theorem get_db_error_counterexample :
    (getSubmission (some ltiEx) true [] "s1").status = 404 ∧
    ¬(getSubmission (some ltiEx) true [] "s1").status = 500 := by
  constructor <;> decide

/-- Witness for C1 at a concrete local-mode upload. -/
theorem upload_accepted_inserts_row_witness :
    ∃ url fname,
      (postUploadAudio envLocal (some ltiEx) fileEx oracleEx stEx).response =
        UploadResponse.ok oracleEx.submissionUuid url
          "Recording submitted successfully!" ∧
      (postUploadAudio envLocal (some ltiEx) fileEx oracleEx stEx).state.db =
        { id := oracleEx.submissionUuid, user_id := ltiEx.userId,
          course_id := ltiEx.courseId, assignment_id := ltiEx.assignmentId,
          audio_url := url, file_name := fname, file_size := fileEx.size,
          created_at := oracleEx.now } :: stEx.db :=
  upload_accepted_inserts_row envLocal ltiEx fileEx oracleEx stEx (by decide) rfl rfl

/-- Witness for C2 at a concrete rejected text file. -/
theorem upload_filter_and_no_effects_witness :
    multerAccepts fileTxt = false ∧
    (postUploadAudio envLocal (some ltiEx) fileTxt oracleEx stEx).state = stEx :=
  ⟨by decide,
    (upload_filter_and_no_effects envLocal (some ltiEx) fileTxt oracleEx stEx).2
      (by decide)⟩

/-- Witness for C3 (amended) at a concrete no-session upload of a
valid audio file. -/
theorem upload_no_session_unauthorized_witness :
    multerAccepts fileEx = true ∧
    (postUploadAudio envLocal none fileEx oracleEx stEx).response =
      UploadResponse.unauthorized "Session expired. Please relaunch from Canvas." ∧
    multerAccepts fileTxt = false ∧
    (postUploadAudio envLocal none fileTxt oracleEx stEx).response =
      UploadResponse.serverError "Something went wrong!" ∧
    (postUploadAudio envLocal none fileEx oracleEx stEx).state.db = stEx.db :=
  ⟨by decide,
    ((upload_no_session_unauthorized envLocal fileEx oracleEx stEx).1 (by decide)).1,
    by decide,
    ((upload_no_session_unauthorized envLocal fileTxt oracleEx stEx).2.1 (by decide)).1,
    (upload_no_session_unauthorized envLocal fileEx oracleEx stEx).2.2⟩

/-- Witness for C4 at a concrete object-store upload whose store write
fails. -/
theorem storage_failure_short_circuits_witness :
    oracleS3Fail.s3Fails = true ∧ multerAccepts fileEx = true ∧
    selectStorage envS3 = StorageKind.memoryStorage ∧
    (postUploadAudio envS3 (some ltiEx) fileEx oracleS3Fail stEx).response.status = 500 ∧
    (postUploadAudio envS3 (some ltiEx) fileEx oracleS3Fail stEx).state = stEx :=
  ⟨rfl, by decide, by decide,
    ((storage_failure_short_circuits envS3 ltiEx fileEx oracleS3Fail stEx).1
      rfl (by decide) (by decide)).1,
    ((storage_failure_short_circuits envS3 ltiEx fileEx oracleS3Fail stEx).1
      rfl (by decide) (by decide)).2⟩

/-- Witness for C5: a row owned by another user is reported not-found. -/
theorem get_submission_owner_scoped_witness :
    getSubmission (some ltiEx) false [rowEx2] "s2" =
      GetResponse.notFound "Submission not found" ∧
    (getSubmission (some ltiEx) true [rowEx2] "s2").status ≠ 403 :=
  ⟨(get_submission_owner_scoped ltiEx [rowEx2] "s2").2.1 (by decide),
    (get_submission_owner_scoped ltiEx [rowEx2] "s2").2.2 true⟩

/-- Witness for C6: a row of user u2 is invisible to the filter of a
session of user u1. -/
theorem list_submissions_scoped_sorted_witness :
    matchesList ltiEx.userId ltiEx.courseId ltiEx.assignmentId rowEx2 = false :=
  (list_submissions_scoped_sorted ltiEx2 [rowEx2]).2 ltiEx (by decide) rowEx2
    (by decide) (by decide)

/-- Witness for C7 at a concrete credentialed environment. -/
theorem storage_selection_deterministic_witness :
    (((⟨some fileEx.size, none, fileEx.size, fileEx.mimetype⟩ : ReqFile).buffer.isSome &&
        envS3.awsAccessKeyId.isSome) = true ↔
      selectStorage envS3 = StorageKind.memoryStorage) :=
  (storage_selection_deterministic envS3).2 fileEx "f1" stEx
    ⟨some fileEx.size, none, fileEx.size, fileEx.mimetype⟩ stEx (by decide)

/-- Witness for C8 at a concrete successful upload with an
outcome-service URL in the session. -/
theorem outcome_reporter_best_effort_witness :
    (postUploadAudio envLocal (some ltiEx) fileEx oracleEx stEx).response.status = 200 ∧
    (postUploadAudio envLocal (some ltiEx) fileEx oracleEx stEx).gradeCalls =
      (if ltiEx.lisOutcomeServiceUrl.isSome then [(ltiEx, (1 : ℚ))] else []) ∧
    (postUploadAudio envLocal (some ltiEx) fileEx
        { oracleEx with outcomeFails := true } stEx).response =
      (postUploadAudio envLocal (some ltiEx) fileEx oracleEx stEx).response :=
  ⟨by decide,
    (outcome_reporter_best_effort envLocal ltiEx fileEx oracleEx stEx).1 (by decide),
    ((outcome_reporter_best_effort envLocal ltiEx fileEx oracleEx stEx).2.2 true).1⟩

/-- Witness for C9 (amended) at concrete failing database operations. -/
theorem db_failure_responses_witness :
    (postUploadAudio envLocal (some ltiEx) fileEx oracleDbFail stEx).response =
      UploadResponse.serverError "Failed to save submission" ∧
    (getSubmissions (some ltiEx) true []).status = 500 ∧
    (getSubmission (some ltiEx) true [] "s1").status = 404 :=
  ⟨(db_failure_responses envLocal ltiEx fileEx oracleDbFail stEx [] "s1"
      rfl (by decide) rfl).1.1,
    (db_failure_responses envLocal ltiEx fileEx oracleDbFail stEx [] "s1"
      rfl (by decide) rfl).2.1.2,
    (db_failure_responses envLocal ltiEx fileEx oracleDbFail stEx [] "s1"
      rfl (by decide) rfl).2.2.2⟩

/-- Witness for C10 at a concrete no-session local-mode upload. -/
theorem local_mode_unauth_upload_writes_file_witness :
    (postUploadAudio envLocal none fileEx oracleEx stEx).state.localFiles =
      (oracleEx.fileUuid ++ ".webm", fileEx.size) :: stEx.localFiles ∧
    (oracleEx.fileUuid ++ ".webm", fileEx.size) ∉ stEx.localFiles ∧
    (postUploadAudio envLocal none fileEx oracleEx stEx).response.status = 401 ∧
    (postUploadAudio envLocal none fileEx oracleEx stEx).state.db = stEx.db :=
  local_mode_unauth_upload_writes_file envLocal fileEx oracleEx stEx (by decide)
    (by decide) (fun s => by simp [stEx])
